import Mathlib

/-!
Shallow embedding of `src/airflow/api_connexion/endpoints/config_endpoint.py`.

The configuration store (`airflow.configuration.conf`) is an external
collaborator; it is modelled as an abstract structure of pure functions.
The two HTTP handlers `get_config` and `get_value` are modelled as pure
functions from the store, the negotiated media type (the result of
`request.accept_mimetypes.best_match`) and the path parameters, to an
`ApiResult` paired with the ordered list of store calls performed before
returning.
-/

set_option maxRecDepth 100000

/-- `LINE_SEP = "\n"` from the source. -/
def LINE_SEP : String := "\n"

/-- Python `str.join`: `joinSep sep [] = ""`, `joinSep sep [x] = x`,
`joinSep sep (x :: xs) = x ++ sep ++ joinSep sep xs`. -/
def joinSep (sep : String) : List String → String
  | [] => ""
  | [x] => x
  | x :: y :: xs => x ++ sep ++ joinSep sep (y :: xs)

/-- `ConfigOption(key=..., value=...)` from the marshmallow schema. -/
structure ConfigOption where
  key : String
  value : String
  deriving DecidableEq

/-- `ConfigSection(name=..., options=...)`. -/
structure ConfigSection where
  name : String
  options : List ConfigOption
  deriving DecidableEq

/-- `Config(sections=...)`. -/
structure Config where
  sections : List ConfigSection
  deriving DecidableEq

/-- `_conf_dict_to_config`: one `ConfigSection` per top-level key, one
`ConfigOption` per entry of the section's mapping, in iteration order. -/
def _conf_dict_to_config (conf_dict : List (String × List (String × String))) : Config :=
  Config.mk
    (conf_dict.map fun sect =>
      ConfigSection.mk sect.1 (sect.2.map fun kv => ConfigOption.mk kv.1 kv.2))

/-- `_option_to_text`: `f"{config_option.key} = {config_option.value}"`. -/
def _option_to_text (config_option : ConfigOption) : String :=
  config_option.key ++ " = " ++ config_option.value

/-- `_section_to_text`: `[name]` followed by the option lines joined by
newlines, with a trailing newline. -/
def _section_to_text (config_section : ConfigSection) : String :=
  "[" ++ config_section.name ++ "]" ++ LINE_SEP ++
    joinSep LINE_SEP (config_section.options.map _option_to_text) ++ LINE_SEP

/-- `_config_to_text`: `LINE_SEP.join(_section_to_text(s) for s in config.sections)`. -/
def _config_to_text (config : Config) : String :=
  joinSep LINE_SEP (config.sections.map _section_to_text)

/-- The external configuration store interface used by the endpoint
(`conf` from `airflow.configuration`): `get`, `getboolean`,
`has_section`, `has_option`, `as_dict(display_source, display_sensitive)`
and the registry `sensitive_config_values` of lowercased
(section, option) pairs. -/
structure ConfStore where
  get : String → String → String
  getboolean : String → String → Bool
  has_section : String → Bool
  has_option : String → String → Bool
  as_dict : Bool → Bool → List (String × List (String × String))
  sensitive_config_values : List (String × String)

/-- One call made on the configuration store, recorded in order. -/
inductive StoreCall where
  | get (sect opt : String)
  | getboolean (sect opt : String)
  | has_section (sect : String)
  | has_option (sect opt : String)
  | as_dict (display_source display_sensitive : Bool)
  deriving DecidableEq

/-- Outcome of a handler: a `Response` (status, optional Content-Type
header, body), a raised `NotFound`, a raised `PermissionDenied`, or a
Python `KeyError` (possible in `get_config` when `conf_dict[section]`
misses even though `has_section` succeeded). -/
inductive ApiResult where
  | response (status : Nat) (contentType : Option String) (body : String)
  | notFound (title detail : String)
  | permissionDenied (detail : String)
  | keyError (key : String)
  deriving DecidableEq

/-- The fixed `PermissionDenied` detail string from both handlers. -/
def pd_detail : String :=
  "Your Airflow administrator chose not to expose the configuration, most likely for security reasons."

/-- `return_type not in serializer` negated: the negotiated type is one of
the two registered media types. -/
def negotiated (return_type : Option String) : Bool :=
  return_type == some "text/plain" || return_type == some "application/json"

/-- Python `str.lower` on the ASCII strings that occur here:
character-wise lowercasing. -/
def pyLower (s : String) : String :=
  String.mk (s.data.map Char.toLower)

/-- The store reads both handlers perform up front to evaluate the
exposure flag: `conf.get("webserver", "expose_config")` always, and
`conf.getboolean("webserver", "expose_config")` unless the flag's
lowercase form is `"non-sensitive-only"`. -/
def flag_trace (store : ConfStore) : List StoreCall :=
  if pyLower (store.get "webserver" "expose_config") == "non-sensitive-only" then
    [StoreCall.get "webserver" "expose_config"]
  else
    [StoreCall.get "webserver" "expose_config",
     StoreCall.getboolean "webserver" "expose_config"]

/-- The exposure decision shared by both handlers:
`(expose_config, display_sensitive)`. -/
def exposure_policy (store : ConfStore) : Bool × Bool :=
  if pyLower (store.get "webserver" "expose_config") == "non-sensitive-only" then
    (true, false)
  else
    (store.getboolean "webserver" "expose_config", true)

/-- Python truthiness of the `section: str | None` parameter:
`None` and `""` are falsy. -/
def truthy : Option String → Bool
  | none => false
  | some s => s != ""

/-- JSON documents, as far as this endpoint produces them: strings,
arrays and objects with ordered fields. -/
inductive Json where
  | str (s : String)
  | arr (items : List Json)
  | obj (fields : List (String × Json))

/-- Escaping of one character inside a JSON string literal, as the Python
standard library serializer does for the characters that can occur here. -/
def jsonEscapeChar (c : Char) : String :=
  if c = '"' then "\\\""
  else if c = '\\' then "\\\\"
  else if c = '\n' then "\\n"
  else if c = '\t' then "\\t"
  else if c = '\r' then "\\r"
  else String.mk [c]

/-- Escape a whole string for inclusion in a JSON string literal. -/
def jsonEscape (s : String) : String :=
  String.join (s.data.map jsonEscapeChar)

/-- `indent * 4` spaces, the indentation prefix at nesting level `indent`. -/
def indentSpaces (lvl : Nat) : String :=
  String.mk (List.replicate (lvl * 4) ' ')

mutual

/-- Python `json.dumps(value, indent=4)` (standard library, external):
containers open with a newline, each element on its own line indented one
level deeper, elements separated by a comma plus newline, key separator
`": "`, closing bracket on its own line at the container's level; empty
containers render inline. -/
def dumpsVal (lvl : Nat) : Json → String
  | Json.str s => "\"" ++ jsonEscape s ++ "\""
  | Json.arr items =>
    match items with
    | [] => "[]"
    | _ :: _ =>
      "[\n" ++ joinSep ",\n" (dumpsItems (lvl + 1) items) ++ "\n" ++ indentSpaces lvl ++ "]"
  | Json.obj fields =>
    match fields with
    | [] => "\x7b\x7d"
    | _ :: _ =>
      "\x7b\n" ++ joinSep ",\n" (dumpsMembers (lvl + 1) fields) ++ "\n" ++ indentSpaces lvl ++ "\x7d"

/-- The rendered lines of an array's elements at level `lvl`. -/
def dumpsItems (lvl : Nat) : List Json → List String
  | [] => []
  | j :: rest => (indentSpaces lvl ++ dumpsVal lvl j) :: dumpsItems lvl rest

/-- The rendered lines of an object's members at level `lvl`. -/
def dumpsMembers (lvl : Nat) : List (String × Json) → List String
  | [] => []
  | (k, v) :: rest =>
    (indentSpaces lvl ++ "\"" ++ jsonEscape k ++ "\": " ++ dumpsVal lvl v) :: dumpsMembers lvl rest

end

/-- Modelled from the spec: `config_schema.dump` from
`airflow.api_connexion.schemas.config_schema` is not in the source slice.
Per the spec's JSON-rendering contract, the dump is a top-level object
with a `sections` array; each section is an object with `name` and an
`options` array; each option is an object with `key` and `value`, in
snapshot order. -/
def config_schema_dump (config : Config) : Json :=
  Json.obj
    [("sections",
      Json.arr
        (config.sections.map fun sect =>
          Json.obj
            [("name", Json.str sect.name),
             ("options",
              Json.arr
                (sect.options.map fun o =>
                  Json.obj [("key", Json.str o.key), ("value", Json.str o.value)]))]))]

/-- `_config_to_json`: `json.dumps(config_schema.dump(config), indent=4)`. -/
def _config_to_json (config : Config) : String :=
  dumpsVal 0 (config_schema_dump config)

/-- `serializer[return_type](config)`: `text/plain` maps to
`_config_to_text`, `application/json` to `_config_to_json`. -/
def serialize (return_type : String) (config : Config) : String :=
  if return_type == "text/plain" then _config_to_text config else _config_to_json config

/-- `get_config(section=...)`: the handler body after access control, as a
function of the store, the negotiated media type (result of `best_match`)
and the `section` parameter, returning the outcome and the ordered store
calls made before returning. -/
def get_config (store : ConfStore) (return_type : Option String) (sect : Option String) :
    ApiResult × List StoreCall :=
  let expose_config := (exposure_policy store).1
  let display_sensitive := (exposure_policy store).2
  let trace1 := flag_trace store
  if !(negotiated return_type) then
    (ApiResult.response 406 none "", trace1)
  else if expose_config then
    let s := sect.getD ""
    if truthy sect && !(store.has_section s) then
      (ApiResult.notFound "section not found." ("section=" ++ s ++ " not found."),
       trace1 ++ [StoreCall.has_section s])
    else
      let trace2 := if truthy sect then trace1 ++ [StoreCall.has_section s] else trace1
      let conf_dict := store.as_dict false display_sensitive
      let trace3 := trace2 ++ [StoreCall.as_dict false display_sensitive]
      let narrowed : Option (List (String × List (String × String))) :=
        if truthy sect then
          match conf_dict.lookup s with
          | some v => some [(s, v)]
          | none => none
        else some conf_dict
      (match narrowed with
       | none => ApiResult.keyError s
       | some cd =>
         ApiResult.response 200 return_type
           (serialize (return_type.getD "") (_conf_dict_to_config cd)),
       trace3)
  else
    (ApiResult.permissionDenied pd_detail, trace1)

/-- `get_value(section, option)`: the handler body after access control,
with the same conventions as `get_config`. -/
def get_value (store : ConfStore) (return_type : Option String) (sect opt : String) :
    ApiResult × List StoreCall :=
  let expose_config := (exposure_policy store).1
  let trace1 := flag_trace store
  if !(negotiated return_type) then
    (ApiResult.response 406 none "", trace1)
  else if expose_config then
    let trace2 := trace1 ++ [StoreCall.has_option sect opt]
    if !(store.has_option sect opt) then
      (ApiResult.notFound "Config not found."
        ("The option [" ++ sect ++ "/" ++ opt ++ "] is not found in config."), trace2)
    else
      let sensitive := store.sensitive_config_values.contains (pyLower sect, pyLower opt)
      let value := if sensitive then "< hidden >" else store.get sect opt
      let trace3 := if sensitive then trace2 else trace2 ++ [StoreCall.get sect opt]
      (ApiResult.response 200 return_type
        (serialize (return_type.getD "")
          (Config.mk [ConfigSection.mk sect [ConfigOption.mk opt value]])), trace3)
  else
    (ApiResult.permissionDenied pd_detail, trace1)

/-- JSON whitespace. -/
def isWsChar (c : Char) : Bool :=
  c = ' ' || c = '\n' || c = '\t' || c = '\r'

/-- Drop leading JSON whitespace. -/
def skipWs : List Char → List Char
  | [] => []
  | c :: cs => if isWsChar c then skipWs cs else c :: cs

/-- Parse the remainder of a JSON string literal (the opening quote
already consumed), returning the decoded string and the rest of the
input. -/
def parseStr : List Char → Option (String × List Char)
  | [] => none
  | c :: cs =>
    if c = '"' then some ("", cs)
    else if c = '\\' then
      match cs with
      | [] => none
      | e :: cs2 =>
        let dec : Option Char :=
          if e = '"' then some '"'
          else if e = '\\' then some '\\'
          else if e = 'n' then some '\n'
          else if e = 't' then some '\t'
          else if e = 'r' then some '\r'
          else none
        match dec with
        | none => none
        | some d =>
          match parseStr cs2 with
          | none => none
          | some (s, rest) => some (String.mk (d :: s.data), rest)
    else
      match parseStr cs with
      | none => none
      | some (s, rest) => some (String.mk (c :: s.data), rest)

mutual

/-- Fuel-bounded parser for a JSON value (strings, arrays, objects),
returning the value and the unconsumed input. -/
def parseVal : Nat → List Char → Option (Json × List Char)
  | 0, _ => none
  | fuel + 1, input =>
    match skipWs input with
    | '"' :: cs =>
      match parseStr cs with
      | some (s, rest) => some (Json.str s, rest)
      | none => none
    | '[' :: cs =>
      match skipWs cs with
      | ']' :: rest => some (Json.arr [], rest)
      | cs2 =>
        match parseItems fuel cs2 with
        | some (items, rest) => some (Json.arr items, rest)
        | none => none
    | '\x7b' :: cs =>
      match skipWs cs with
      | '\x7d' :: rest => some (Json.obj [], rest)
      | cs2 =>
        match parseMembers fuel cs2 with
        | some (fields, rest) => some (Json.obj fields, rest)
        | none => none
    | _ => none

/-- Parse the elements of a non-empty JSON array up to and including the
closing bracket. -/
def parseItems : Nat → List Char → Option (List Json × List Char)
  | 0, _ => none
  | fuel + 1, input =>
    match parseVal fuel input with
    | none => none
    | some (j, rest) =>
      match skipWs rest with
      | ',' :: rest2 =>
        match parseItems fuel rest2 with
        | none => none
        | some (items, rest3) => some (j :: items, rest3)
      | ']' :: rest2 => some ([j], rest2)
      | _ => none

/-- Parse the members of a non-empty JSON object up to and including the
closing brace. -/
def parseMembers : Nat → List Char → Option (List (String × Json) × List Char)
  | 0, _ => none
  | fuel + 1, input =>
    match skipWs input with
    | '"' :: cs =>
      match parseStr cs with
      | none => none
      | some (k, rest) =>
        match skipWs rest with
        | ':' :: rest2 =>
          match parseVal fuel rest2 with
          | none => none
          | some (v, rest3) =>
            match skipWs rest3 with
            | ',' :: rest4 =>
              match parseMembers fuel rest4 with
              | none => none
              | some (fields, rest5) => some ((k, v) :: fields, rest5)
            | '\x7d' :: rest4 => some ([(k, v)], rest4)
            | _ => none
        | _ => none
    | _ => none

end

/-- Parse a complete JSON document, requiring only whitespace after it. -/
def parseJsonString (s : String) : Option Json :=
  match parseVal (s.length + 1) s.data with
  | some (j, rest) => if (skipWs rest).isEmpty then some j else none
  | none => none

/-- Read a `ConfigOption` back from its JSON object form. -/
def configOptionOfJson : Json → Option ConfigOption
  | Json.obj [("key", Json.str k), ("value", Json.str v)] => some (ConfigOption.mk k v)
  | _ => none

/-- Read a list of `ConfigOption`s back from JSON array elements. -/
def configOptionsOfJson : List Json → Option (List ConfigOption)
  | [] => some []
  | j :: rest =>
    match configOptionOfJson j, configOptionsOfJson rest with
    | some o, some os => some (o :: os)
    | _, _ => none

/-- Read a `ConfigSection` back from its JSON object form. -/
def configSectionOfJson : Json → Option ConfigSection
  | Json.obj [("name", Json.str n), ("options", Json.arr opts)] =>
    match configOptionsOfJson opts with
    | some os => some (ConfigSection.mk n os)
    | none => none
  | _ => none

/-- Read a list of `ConfigSection`s back from JSON array elements. -/
def configSectionsOfJson : List Json → Option (List ConfigSection)
  | [] => some []
  | j :: rest =>
    match configSectionOfJson j, configSectionsOfJson rest with
    | some s, some ss => some (s :: ss)
    | _, _ => none

/-- Read a whole `Config` back from the dumped JSON document. -/
def configOfJson : Json → Option Config
  | Json.obj [("sections", Json.arr secs)] =>
    match configSectionsOfJson secs with
    | some ss => some (Config.mk ss)
    | none => none
  | _ => none

/-- Parse a JSON document and read a `Config` back from it. -/
def parseConfigJson (s : String) : Option Config :=
  match parseJsonString s with
  | some j => configOfJson j
  | none => none

/-- The one-section snapshot `{"a": {"k1": "v1", "k2": "v2"}}` used by the
spec's concrete rendering and round-trip properties. -/
def snapshot_a : Config :=
  Config.mk [ConfigSection.mk "a" [ConfigOption.mk "k1" "v1", ConfigOption.mk "k2" "v2"]]

/-- A two-section snapshot for the section-separator property. -/
def snapshot_ab : Config :=
  Config.mk
    [ConfigSection.mk "a" [ConfigOption.mk "k" "v"],
     ConfigSection.mk "b" [ConfigOption.mk "x" "y"]]

/-- A fixture store whose exposure flag reads `"True"` and parses as
boolean true: exposure fully enabled, no redaction layer. -/
def storeTrue : ConfStore where
  get := fun s o =>
    if s == "webserver" && o == "expose_config" then "True" else "val-" ++ s ++ "-" ++ o
  getboolean := fun _ _ => true
  has_section := fun s => s == "a" || s == "b"
  has_option := fun s o =>
    (s == "a" && (o == "k1" || o == "k2" || o == "Secret")) || (s == "b" && o == "x")
  as_dict := fun _ _ => [("a", [("k1", "v1"), ("k2", "v2")]), ("b", [("x", "y")])]
  sensitive_config_values := [("a", "secret")]

/-- A fixture store whose exposure flag reads `"Non-Sensitive-Only"`
(mixed case, exercising the case-insensitive comparison). -/
def storeNso : ConfStore where
  get := fun s o =>
    if s == "webserver" && o == "expose_config" then "Non-Sensitive-Only"
    else "val-" ++ s ++ "-" ++ o
  getboolean := fun _ _ => false
  has_section := fun s => s == "a" || s == "b"
  has_option := fun s o =>
    (s == "a" && (o == "k1" || o == "k2" || o == "Secret")) || (s == "b" && o == "x")
  as_dict := fun _ _ => [("a", [("k1", "v1"), ("k2", "v2")]), ("b", [("x", "y")])]
  sensitive_config_values := [("a", "secret")]

/-- A fixture store whose exposure flag reads `"False"` and parses as
boolean false: exposure disabled. -/
def storeFalse : ConfStore where
  get := fun s o =>
    if s == "webserver" && o == "expose_config" then "False" else "val-" ++ s ++ "-" ++ o
  getboolean := fun _ _ => false
  has_section := fun s => s == "a" || s == "b"
  has_option := fun s o =>
    (s == "a" && (o == "k1" || o == "k2" || o == "Secret")) || (s == "b" && o == "x")
  as_dict := fun _ _ => [("a", [("k1", "v1"), ("k2", "v2")]), ("b", [("x", "y")])]
  sensitive_config_values := [("a", "secret")]

/-- A successfully negotiated media type is one of the two registered
strings. -/
theorem negotiated_cases (rt : Option String) (h : negotiated rt = true) :
    rt = some "text/plain" ∨ rt = some "application/json" := by
  cases rt with
  | none => simp [negotiated] at h
  | some m =>
    simp only [negotiated, Bool.or_eq_true, beq_iff_eq] at h
    rcases h with h | h
    · exact Or.inl h
    · exact Or.inr h

/-- C4: text rendering of the single-section snapshot with section `a`
and ordered options `k1=v1`, `k2=v2` is exactly
`"[a]\nk1 = v1\nk2 = v2\n"`. -/
theorem c4_text_rendering_exact :
    _config_to_text snapshot_a = "[a]\nk1 = v1\nk2 = v2\n" := by
  rfl

/-- C8: rendering the one-section snapshot
`{"a": {"k1": "v1", "k2": "v2"}}` to JSON with `_config_to_json` and
parsing the JSON document back reproduces the same section name, option
keys, values and order. -/
theorem c8_json_roundtrip :
    parseConfigJson (_config_to_json snapshot_a) = some snapshot_a := by
  decide

/-- C5 counterexample: on a two-section snapshot the renderer's output is
the two section renderings joined by an extra newline (a blank line
between sections), not their plain concatenation as the claim states. -/
theorem c5_counterexample :
    _config_to_text snapshot_ab = "[a]\nk = v\n\n[b]\nx = y\n" ∧
    _config_to_text snapshot_ab ≠
      _section_to_text (ConfigSection.mk "a" [ConfigOption.mk "k" "v"]) ++
        _section_to_text (ConfigSection.mk "b" [ConfigOption.mk "x" "y"]) := by
  constructor
  · decide
  · decide

/-- C5 (amended): for every snapshot with two or more sections, text
rendering joins the sections' renderings with one extra newline
separator, so one blank line stands between consecutive sections beyond
the trailing newline each section's rendering already ends with. -/
theorem c5_amended_section_separator (s t : ConfigSection) (rest : List ConfigSection) :
    _config_to_text (Config.mk (s :: t :: rest)) =
      _section_to_text s ++ LINE_SEP ++ _config_to_text (Config.mk (t :: rest)) := by
  simp [_config_to_text, joinSep]

/-- C1 counterexample: with an `Accept` header matching neither supported
type, `get_config` does return 406, but the store has already been read:
the call trace contains `get("webserver", "expose_config")` (and here
also `getboolean`), refuting the claim that no `get`/`getboolean` call is
made before returning. -/
theorem c1_counterexample :
    (get_config storeTrue none none).1 = ApiResult.response 406 none "" ∧
    (get_config storeTrue none none).2 =
      [StoreCall.get "webserver" "expose_config",
       StoreCall.getboolean "webserver" "expose_config"] ∧
    StoreCall.get "webserver" "expose_config" ∈ (get_config storeTrue none none).2 := by
  refine ⟨by decide, by decide, by decide⟩

/-- C1 (amended): when the `Accept` header matches neither `text/plain`
nor `application/json`, both handlers return HTTP 406 and make no
`has_section`, `has_option` or `as_dict` call and no `get`/`getboolean`
call other than the reads of the `webserver.expose_config` exposure flag
itself, which both handlers perform before the accept check. -/
theorem c1_unsupported_accept_406 (store : ConfStore) (rt : Option String)
    (sect : Option String) (s o : String) (h : negotiated rt = false) :
    get_config store rt sect = (ApiResult.response 406 none "", flag_trace store) ∧
    get_value store rt s o = (ApiResult.response 406 none "", flag_trace store) ∧
    ∀ c ∈ flag_trace store,
      c = StoreCall.get "webserver" "expose_config" ∨
      c = StoreCall.getboolean "webserver" "expose_config" := by
  refine ⟨by simp [get_config, h], by simp [get_value, h], ?_⟩
  intro c hc
  unfold flag_trace at hc
  split at hc <;> simp at hc <;> tauto

/-- C1 witness: the amended theorem applied to a concrete store and an
`Accept` header that negotiates no supported type. -/
theorem c1_witness :
    get_config storeTrue none none = (ApiResult.response 406 none "", flag_trace storeTrue) ∧
    get_value storeTrue none "a" "k1" =
      (ApiResult.response 406 none "", flag_trace storeTrue) ∧
    ∀ c ∈ flag_trace storeTrue,
      c = StoreCall.get "webserver" "expose_config" ∨
      c = StoreCall.getboolean "webserver" "expose_config" :=
  c1_unsupported_accept_406 storeTrue none none "a" "k1" (by decide)

/-- C2: when the `Accept` header negotiates successfully and the exposure
flag is disabled (not `non-sensitive-only` and boolean false), both
handlers raise `PermissionDenied` — never `NotFound` — and their call
traces contain no `has_section` or `has_option` existence check. -/
theorem c2_disabled_denies_before_existence (store : ConfStore) (rt : Option String)
    (sect : Option String) (s o : String)
    (hl : pyLower (store.get "webserver" "expose_config") ≠ "non-sensitive-only")
    (hb : store.getboolean "webserver" "expose_config" = false)
    (hn : negotiated rt = true) :
    get_config store rt sect = (ApiResult.permissionDenied pd_detail, flag_trace store) ∧
    get_value store rt s o = (ApiResult.permissionDenied pd_detail, flag_trace store) ∧
    ∀ c ∈ flag_trace store,
      (∀ x, c ≠ StoreCall.has_section x) ∧ ∀ x y, c ≠ StoreCall.has_option x y := by
  have hpol : exposure_policy store = (false, true) := by
    simp [exposure_policy, hl, hb]
  refine ⟨by simp [get_config, hn, hpol], by simp [get_value, hn, hpol], ?_⟩
  intro c hc
  unfold flag_trace at hc
  split at hc
  · simp at hc
    subst hc
    simp
  · simp at hc
    rcases hc with h | h <;> subst h <;> simp

/-- C2 witness: the theorem applied to the disabled fixture store with an
`Accept` header negotiating `application/json`. -/
theorem c2_witness :
    get_config storeFalse (some "application/json") (some "a") =
      (ApiResult.permissionDenied pd_detail, flag_trace storeFalse) ∧
    get_value storeFalse (some "application/json") "a" "k1" =
      (ApiResult.permissionDenied pd_detail, flag_trace storeFalse) ∧
    ∀ c ∈ flag_trace storeFalse,
      (∀ x, c ≠ StoreCall.has_section x) ∧ ∀ x y, c ≠ StoreCall.has_option x y :=
  c2_disabled_denies_before_existence storeFalse (some "application/json") (some "a") "a" "k1"
    (by decide) (by decide) (by decide)

/-- Helper: the up-front exposure-flag reads contain no `as_dict` call. -/
theorem as_dict_not_mem_flag_trace (store : ConfStore) (b ds : Bool) :
    StoreCall.as_dict b ds ∉ flag_trace store := by
  unfold flag_trace
  split <;> simp

/-- C3: the exposure decision: a flag whose lowercase form is
`non-sensitive-only` yields exposure allowed with sensitive values
suppressed; any other flag yields exposure allowed exactly when the flag
parses as boolean true, with no suppression; and every `as_dict` read
`get_config` performs passes `display_source = false` and
`display_sensitive` equal to the policy's suppression component. -/
theorem c3_exposure_policy_cases (store : ConfStore) :
    (pyLower (store.get "webserver" "expose_config") = "non-sensitive-only" →
      exposure_policy store = (true, false)) ∧
    (pyLower (store.get "webserver" "expose_config") ≠ "non-sensitive-only" →
      exposure_policy store = (store.getboolean "webserver" "expose_config", true)) ∧
    ∀ rt sect b ds, StoreCall.as_dict b ds ∈ (get_config store rt sect).2 →
      b = false ∧ ds = (exposure_policy store).2 := by
  refine ⟨fun h => by simp [exposure_policy, h], fun h => by simp [exposure_policy, h], ?_⟩
  intro rt sect b ds hmem
  have hft := as_dict_not_mem_flag_trace store b ds
  by_cases hneg : negotiated rt = true
  · by_cases hexp : (exposure_policy store).1 = true
    · by_cases hsec : (truthy sect && !store.has_section (sect.getD "")) = true
      · simp [get_config, hneg, hexp, hsec] at hmem
        exact absurd hmem hft
      · simp [get_config, hneg, hexp, hsec] at hmem
        rcases hmem with h | h
        · by_cases ht : truthy sect = true <;> simp [ht] at h <;> exact absurd h hft
        · exact h
    · simp [get_config, hneg, hexp] at hmem
      exact absurd hmem hft
  · simp [get_config, hneg] at hmem
    exact absurd hmem hft

/-- C3 witness: the policy cases applied to a store whose flag reads
`"Non-Sensitive-Only"` (mixed case) and to one whose flag parses as
boolean true. -/
theorem c3_witness :
    exposure_policy storeNso = (true, false) ∧
    exposure_policy storeTrue = (true, true) :=
  ⟨(c3_exposure_policy_cases storeNso).1 (by decide),
   (c3_exposure_policy_cases storeTrue).2.1 (by decide)⟩

/-- C6: with negotiation successful, exposure allowed and the option
present, `get_value` renders the fixed marker `"< hidden >"` whenever the
lowercased (section, option) pair is in the store's sensitive registry —
independent of the exposure mode — and the real stored value otherwise. -/
theorem c6_sensitive_marker (store : ConfStore) (rt : Option String) (s o : String)
    (hn : negotiated rt = true) (hexp : (exposure_policy store).1 = true)
    (hopt : store.has_option s o = true) :
    (store.sensitive_config_values.contains (pyLower s, pyLower o) = true →
      (get_value store rt s o).1 = ApiResult.response 200 rt
        (serialize (rt.getD "")
          (Config.mk [ConfigSection.mk s [ConfigOption.mk o "< hidden >"]]))) ∧
    (store.sensitive_config_values.contains (pyLower s, pyLower o) = false →
      (get_value store rt s o).1 = ApiResult.response 200 rt
        (serialize (rt.getD "")
          (Config.mk [ConfigSection.mk s [ConfigOption.mk o (store.get s o)]]))) := by
  constructor
  · intro hs
    have hs2 : (pyLower s, pyLower o) ∈ store.sensitive_config_values := by simpa using hs
    simp [get_value, hn, hexp, hopt, hs2]
  · intro hs
    have hs2 : (pyLower s, pyLower o) ∉ store.sensitive_config_values := by simpa using hs
    simp [get_value, hn, hexp, hopt, hs2]

/-- C6 witness: on the fully-enabled fixture store, the registered
sensitive pair `(a, Secret)` renders as `"< hidden >"` and the
unregistered pair `(a, k1)` renders its stored value. -/
theorem c6_witness :
    (get_value storeTrue (some "text/plain") "a" "Secret").1 =
      ApiResult.response 200 (some "text/plain")
        (serialize "text/plain"
          (Config.mk [ConfigSection.mk "a" [ConfigOption.mk "Secret" "< hidden >"]])) ∧
    (get_value storeTrue (some "text/plain") "a" "k1").1 =
      ApiResult.response 200 (some "text/plain")
        (serialize "text/plain"
          (Config.mk [ConfigSection.mk "a" [ConfigOption.mk "k1" (storeTrue.get "a" "k1")]])) :=
  ⟨(c6_sensitive_marker storeTrue (some "text/plain") "a" "Secret"
      (by decide) (by decide) (by decide)).1 (by decide),
   (c6_sensitive_marker storeTrue (some "text/plain") "a" "k1"
      (by decide) (by decide) (by decide)).2 (by decide)⟩

/-- C7: with negotiation successful and exposure allowed, requesting an
existing nonempty section narrows the response to exactly that section
with its option order preserved from the store's mapping. -/
theorem c7_section_narrowing (store : ConfStore) (rt : Option String) (s : String)
    (opts : List (String × String))
    (hn : negotiated rt = true) (hexp : (exposure_policy store).1 = true)
    (hs : s ≠ "") (hsec : store.has_section s = true)
    (hlk : (store.as_dict false (exposure_policy store).2).lookup s = some opts) :
    (get_config store rt (some s)).1 =
      ApiResult.response 200 rt
        (serialize (rt.getD "") (_conf_dict_to_config [(s, opts)])) := by
  simp [get_config, hn, hexp, truthy, hs, hsec, hlk]

/-- C7 witness: the narrowing theorem applied to the fully-enabled
fixture store and its section `a`. -/
theorem c7_witness :
    (get_config storeTrue (some "application/json") (some "a")).1 =
      ApiResult.response 200 (some "application/json")
        (serialize "application/json"
          (_conf_dict_to_config [("a", [("k1", "v1"), ("k2", "v2")])])) :=
  c7_section_narrowing storeTrue (some "application/json") "a" [("k1", "v1"), ("k2", "v2")]
    (by decide) (by decide) (by decide) (by decide) (by decide)

/-- C9: every successful (HTTP 200) response of either handler carries a
`Content-Type` header equal to the negotiated media type, and its body
was produced by the serializer registered for that type. -/
theorem c9_content_type_matches (store : ConfStore) (rt : Option String)
    (sect : Option String) (s o : String) :
    (∀ ct body tr, get_config store rt sect = (ApiResult.response 200 ct body, tr) →
      ∃ m, rt = some m ∧ ct = some m ∧ (m = "text/plain" ∨ m = "application/json") ∧
        ∃ cfg, body = serialize m cfg) ∧
    (∀ ct body tr, get_value store rt s o = (ApiResult.response 200 ct body, tr) →
      ∃ m, rt = some m ∧ ct = some m ∧ (m = "text/plain" ∨ m = "application/json") ∧
        ∃ cfg, body = serialize m cfg) := by
  constructor
  · intro ct body tr h
    by_cases hneg : negotiated rt = true
    · by_cases hexp : (exposure_policy store).1 = true
      · by_cases hsec2 : (truthy sect && !store.has_section (sect.getD "")) = true
        · simp [get_config, hneg, hexp, hsec2] at h
        · simp [get_config, hneg, hexp, hsec2] at h
          rcases h with ⟨h1, -⟩
          split at h1
          · simp at h1
          · simp at h1
            obtain ⟨hct, hbody⟩ := h1
            rcases negotiated_cases rt hneg with hm | hm <;>
              subst hm <;> subst hct <;>
              exact ⟨_, rfl, rfl, by simp, _, hbody.symm⟩
      · simp [get_config, hneg, hexp] at h
    · simp [get_config, hneg] at h
  · intro ct body tr h
    by_cases hneg : negotiated rt = true
    · by_cases hexp : (exposure_policy store).1 = true
      · by_cases hopt : store.has_option s o = true
        · simp [get_value, hneg, hexp, hopt] at h
          rcases h with ⟨⟨hct, hbody⟩, -⟩
          rcases negotiated_cases rt hneg with hm | hm <;>
            subst hm <;> subst hct <;>
            exact ⟨_, rfl, rfl, by simp, _, hbody.symm⟩
        · simp [get_value, hneg, hexp, hopt] at h
      · simp [get_value, hneg, hexp] at h
    · simp [get_value, hneg] at h

/-- C9 witness: a concrete 200 response from each handler, with the
`Content-Type` header extracted by the theorem. -/
theorem c9_witness :
    (∃ m, (some "application/json" : Option String) = some m ∧
      (some "application/json" : Option String) = some m ∧
      (m = "text/plain" ∨ m = "application/json") ∧
      ∃ cfg, _config_to_json (_conf_dict_to_config (storeTrue.as_dict false true)) =
        serialize m cfg) := by
  have h := (c9_content_type_matches storeTrue (some "application/json") none "a" "k1").1
    (some "application/json")
    (_config_to_json (_conf_dict_to_config (storeTrue.as_dict false true)))
    (flag_trace storeTrue ++ [StoreCall.as_dict false true]) (by decide)
  exact h

/-- Helper: every up-front exposure-flag read is a `get` or a
`getboolean` of `webserver.expose_config`. -/
theorem mem_flag_trace_shape (store : ConfStore) (c : StoreCall)
    (hc : c ∈ flag_trace store) :
    c = StoreCall.get "webserver" "expose_config" ∨
    c = StoreCall.getboolean "webserver" "expose_config" := by
  unfold flag_trace at hc
  split at hc <;> simp at hc <;> tauto

/-- C10: calling `get_config` with the empty-string section (falsy but
not `None`) behaves exactly as if no section had been given: the
existence check and the narrowing are skipped, and with negotiation and
exposure succeeding the full configuration is returned with HTTP 200 and
no `has_section` call. -/
theorem c10_empty_section_like_none (store : ConfStore) (rt : Option String) :
    get_config store rt (some "") = get_config store rt none ∧
    (negotiated rt = true → (exposure_policy store).1 = true →
      (get_config store rt (some "")).1 =
        ApiResult.response 200 rt
          (serialize (rt.getD "")
            (_conf_dict_to_config (store.as_dict false (exposure_policy store).2))) ∧
      ∀ x, StoreCall.has_section x ∉ (get_config store rt (some "")).2) := by
  constructor
  · simp [get_config, truthy]
  · intro hn hexp
    constructor
    · simp [get_config, hn, hexp, truthy]
    · intro x hmem
      simp [get_config, hn, hexp, truthy] at hmem
      rcases mem_flag_trace_shape store _ hmem with h | h <;> simp at h

/-- C10 witness: the empty-section theorem applied to the fully-enabled
fixture store with `text/plain` negotiated. -/
theorem c10_witness :
    get_config storeTrue (some "text/plain") (some "") =
      get_config storeTrue (some "text/plain") none ∧
    ((get_config storeTrue (some "text/plain") (some "")).1 =
      ApiResult.response 200 (some "text/plain")
        (serialize "text/plain" (_conf_dict_to_config (storeTrue.as_dict false true))) ∧
      ∀ x, StoreCall.has_section x ∉ (get_config storeTrue (some "text/plain") (some "")).2) :=
  ⟨(c10_empty_section_like_none storeTrue (some "text/plain")).1,
   (c10_empty_section_like_none storeTrue (some "text/plain")).2 (by decide) (by decide)⟩
